import Mathlib

/-
Verification of the Pulumi stack-migration scripts in this repository.

Strings from the TypeScript source are embedded as `List Char`.  Each
definition mirrors one function of the source scripts:
  * the plain migration script (pulumi-migrate.ts, Pulumi Cloud -> S3), and
  * the spinner-based variants (S3 -> Pulumi Cloud, and the spinner
    Cloud -> S3 migration script).
-/

namespace SuperUtils

/-- Whitespace test mirroring the JavaScript regexp class backslash-s for the
ASCII range (space, tab, line feed, carriage return, vertical tab, form feed).
Non-ASCII whitespace code points are outside the modelled input range. -/
def isWsChar (c : Char) : Bool :=
  c == ' ' || c == '\t' || c == '\n' || c == '\r' || c == '\x0b' || c == '\x0c'

/-- Boolean prefix test on char lists. -/
def isPrefixB : List Char → List Char → Bool
  | [], _ => true
  | _ :: _, [] => false
  | a :: as, b :: bs => a == b && isPrefixB as bs

/-- Substring containment, mirroring the JavaScript String.includes method. -/
def containsB (hay pat : List Char) : Bool :=
  hay.tails.any (fun t => isPrefixB pat t)

/-- Consume one character satisfying p, or fail. -/
def eatOne (p : Char → Bool) : List Char → Option (List Char)
  | [] => none
  | c :: rest => if p c then some rest else none

/-- Consume one or more characters satisfying p (maximal munch), or fail. -/
def eatPlus (p : Char → Bool) (l : List Char) : Option (List Char) :=
  (eatOne p l).map (List.dropWhile p)

/-- Match, at the head of the list, the regular expression
sym backslash-s+ backslash-d+ backslash-s+ word, as used by the spinner
variants' change detection (e.g. plus-sign, spaces, digits, spaces,
"to create").  Maximal munch coincides with the regexp semantics here
because the digit and whitespace classes are disjoint and the literal
word starts with a non-space letter. -/
def matchAt (sym : Char) (word : List Char) (l : List Char) : Bool :=
  ((((eatOne (fun c => c == sym) l).bind (eatPlus isWsChar)).bind
      (eatPlus Char.isDigit)).bind (eatPlus isWsChar)).elim
    false (fun l₄ => isPrefixB word l₄)

/-- Search the whole string for a match of the pattern, mirroring the
JavaScript String.match test against the change-count regexps. -/
def reSearch (sym : Char) (word : List Char) (hay : List Char) : Bool :=
  hay.tails.any (matchAt sym word)

def toCreateW : List Char := ("to create").data

def toUpdateW : List Char := ("to update").data

def toDeleteW : List Char := ("to delete").data

/-- Change detection of the spinner variants' verifyMigration:
hasChanges = (output.includes("+ ") and output.match of the create regexp)
or (the same for "~ " / update) or (the same for "- " / delete). -/
def hasChangesCloud (out : List Char) : Bool :=
  (containsB out (("+ ").data) && reSearch '+' toCreateW out) ||
  (containsB out (("~ ").data) && reSearch '~' toUpdateW out) ||
  (containsB out (("- ").data) && reSearch '-' toDeleteW out)

/-- Result of the spinner variants' verifyMigration: true (Clean) iff the
preview command succeeded and no change indicator matched. -/
def cloudVerify (success : Bool) (out : List Char) : Bool :=
  success && !(hasChangesCloud out)

/-- Clean-output test of the plain script's verifyMigration:
noChanges = output.includes("no changes") or (includes "0 resources to
create" and includes "0 resources to update" and includes "0 resources to
delete"), with the JavaScript or-over-and precedence. -/
def plainNoChanges (out : List Char) : Bool :=
  containsB out (("no changes").data) ||
  (containsB out (("0 resources to create").data) &&
   containsB out (("0 resources to update").data) &&
   containsB out (("0 resources to delete").data))

/-- Result of the plain script's verifyMigration: true (Clean) iff the
preview command succeeded and the output reads as clean. -/
def plainVerify (success : Bool) (out : List Char) : Bool :=
  success && plainNoChanges out

/-- The claim's count-pattern property: the output contains a line fragment
"+ N to create" for some N >= 1 (a nonempty digit string with a nonzero
digit), with single spaces as separators. -/
def ContainsPlusCreate (out : List Char) : Prop :=
  ∃ s₁ d s₂, d ≠ [] ∧ (∀ c ∈ d, c.isDigit = true) ∧ (∃ c ∈ d, c ≠ '0') ∧
    out = s₁ ++ '+' :: ' ' :: (d ++ ' ' :: (toCreateW ++ s₂))

/-! ### Backend URL building and parsing -/

/-- Split on every occurrence of a character, mirroring the JavaScript
String.split with a single-character separator.  The result is always
nonempty. -/
def splitOnChar (sep : Char) : List Char → List (List Char)
  | [] => [[]]
  | c :: rest =>
    if c = sep then [] :: splitOnChar sep rest
    else (c :: (splitOnChar sep rest).headD []) :: (splitOnChar sep rest).tail

/-- Split at the first occurrence of a character: the part before it and,
when the character occurs, the part after it. -/
def splitFirst (sep : Char) : List Char → List Char × Option (List Char)
  | [] => ([], none)
  | c :: rest =>
    if c = sep then ([], some rest)
    else (c :: (splitFirst sep rest).1, (splitFirst sep rest).2)

def hexDigitVal (c : Char) : Option Nat :=
  if '0' ≤ c ∧ c ≤ '9' then some (c.toNat - ('0').toNat)
  else if 'A' ≤ c ∧ c ≤ 'F' then some (c.toNat - ('A').toNat + 10)
  else if 'a' ≤ c ∧ c ≤ 'f' then some (c.toNat - ('a').toNat + 10)
  else none

/-- Fueled worker for formDecode; the fuel only bounds the recursion depth
and is always at least the list length at every call site. -/
def formDecodeAux : Nat → List Char → List Char
  | 0, l => l
  | _ + 1, [] => []
  | n + 1, c :: rest =>
    if c = '+' then ' ' :: formDecodeAux n rest
    else if c = '%' then
      match rest with
      | c₁ :: c₂ :: rest₂ =>
        match hexDigitVal c₁, hexDigitVal c₂ with
        | some h₁, some h₂ => Char.ofNat (16 * h₁ + h₂) :: formDecodeAux n rest₂
        | _, _ => '%' :: formDecodeAux n rest
      | _ => '%' :: formDecodeAux n rest
    else c :: formDecodeAux n rest

/-- Percent-decoding of URLSearchParams names and values: '+' becomes a
space and a percent sign followed by two hex digits becomes the character
of that byte value.  Multi-byte UTF-8 percent sequences are outside the
modelled input range (the migration scripts only pass ASCII names). -/
def formDecode (l : List Char) : List Char := formDecodeAux l.length l

/-- The name/value pairs of a query string in URLSearchParams order: split
on ampersands, drop empty fragments, split each at the first equals sign,
decode names and values. -/
def spPairs (q : List Char) : List (List Char × List Char) :=
  ((splitOnChar '&' q).filter (fun p => !(p.isEmpty))).map
    (fun p => (formDecode (splitFirst '=' p).1, formDecode ((splitFirst '=' p).2.getD [])))

/-- URLSearchParams.get: the value of the first pair whose name matches,
or none. -/
def searchParamsGet (q key : List Char) : Option (List Char) :=
  ((spPairs q).find? (fun pr => decide (pr.1 = key))).map (fun pr => pr.2)

/-- JavaScript-falsy normalization of an optional string: the empty string
collapses to none (modelling the source's "x || fallback" and
"x || undefined" on a possibly-null string). -/
def normOptVal : Option (List Char) → Option (List Char)
  | some v => if v = [] then none else some v
  | none => none

structure S3Backend where
  bucket : List Char
  region : List Char
  dynamoDBTable : Option (List Char)
deriving DecidableEq, Repr

def regionKeyW : List Char := ("region").data

def tableKeyW : List Char := ("dynamodb_table").data

/-- parseS3BackendUrl of the S3-to-Cloud migration script: require the
"s3://" scheme, split bucket from query at the first question mark, fail
on an empty bucket (the source throws and exits 1, modelled as none),
read the region with the --region flag value as fallback and the optional
dynamodb_table. -/
def parseS3BackendUrl (dfltRegion : List Char) : List Char → Option S3Backend
  | 's' :: '3' :: ':' :: '/' :: '/' :: rest =>
    match splitOnChar '?' rest with
    | [] => none
    | bucket :: parts =>
      if bucket = [] then none
      else
        some ⟨bucket,
          (normOptVal (searchParamsGet ((parts.head?).getD []) regionKeyW)).getD dfltRegion,
          normOptVal (searchParamsGet ((parts.head?).getD []) tableKeyW)⟩
  | _ => none

/-- The backend login URL built by loginToS3Backend of the Cloud-to-S3
scripts: "s3://bucket?region=R" with "&dynamodb_table=T" appended when a
lock table was supplied. -/
def buildS3LoginUrl (bucket region : List Char) (table : Option (List Char)) : List Char :=
  (("s3://").data ++ bucket ++ ("?region=").data ++ region) ++
    (match table with
     | some t => ("&dynamodb_table=").data ++ t
     | none => [])

/-- Default of the --region flag in the S3-to-Cloud migration script:
the AWS_REGION environment variable when set and nonempty, else the
hardcoded "us-west-2". -/
def resolveDefaultRegion (awsRegionEnv : Option (List Char)) : List Char :=
  match awsRegionEnv with
  | some r => if r = [] then ("us-west-2").data else r
  | none => ("us-west-2").data

/-- Characters that are neither URL-syntax separators nor decoded by
URLSearchParams; legal S3 bucket names, AWS regions and DynamoDB table
names use only such characters. -/
def okNameB (l : List Char) : Bool :=
  l.all (fun c => !(c = '?' || c = '&' || c = '=' || c = '%' || c = '+'))

/-! ### Command executor (executeCommand) -/

/-- Outcome of spawning the external process: either it ran to completion
with an exit code and captured stdout/stderr, or an exception was raised
(spawn failure, I/O error) with its message. -/
inductive SpawnOutcome where
  | completed (code : Nat) (stdout stderr : List Char)
  | raised (msg : List Char)
deriving DecidableEq, Repr

structure StepResult where
  output : List Char
  success : Bool
deriving DecidableEq, Repr

/-- JavaScript String.trim on the captured stdout. -/
def trimStr (l : List Char) : List Char :=
  ((l.dropWhile isWsChar).reverse.dropWhile isWsChar).reverse

/-- The fallback error message of the spinner variants' executeCommand:
"Command exited with code N" (used when stderr is empty). -/
def exitCodeMsg (code : Nat) : List Char :=
  ("Command exited with code ").data ++ (Nat.repr code).data

/-- executeCommand of the spinner variants: on exit code 0 return trimmed
stdout with success; otherwise throw Error(stderr or the fallback
message), which the catch turns into the StepResult with success false;
a raised spawn/IO error likewise becomes its message with success false.
The function is total: no exception propagates to the caller. -/
def executeCommand : SpawnOutcome → StepResult
  | .completed 0 sout _ => ⟨trimStr sout, true⟩
  | .completed (c + 1) _ serr =>
    ⟨if serr = [] then exitCodeMsg (c + 1) else serr, false⟩
  | .raised m => ⟨m, false⟩

/-- The error message of the plain script's executeCommand:
"Command failed with exit code N: " followed by stderr. -/
def plainFailMsg (code : Nat) (serr : List Char) : List Char :=
  ("Command failed with exit code ").data ++ (Nat.repr code).data ++ (": ").data ++ serr

/-- executeCommand of the plain script; only the thrown message differs
from the spinner variants. -/
def executeCommandPlain : SpawnOutcome → StepResult
  | .completed 0 sout _ => ⟨trimStr sout, true⟩
  | .completed (c + 1) _ serr => ⟨plainFailMsg (c + 1) serr, false⟩
  | .raised m => ⟨m, false⟩

/-! ### Step commands: export, bucket creation, stack init -/

/-- Path join as used with the temporary directory names. -/
def joinPath (a b : List Char) : List Char := a ++ '/' :: b

/-- The stack name with every '/' replaced by '-'
(stack.replaceAll("/", "-")). -/
def replSlash (stack : List Char) : List Char :=
  stack.map (fun c => if c = '/' then '-' else c)

/-- The temporary state-file path of exportStackState:
cwd/.pulumi-migrate-temp/(stack with '/' -> '-')-state.json. -/
def exportStatePath (cwd stack : List Char) : List Char :=
  joinPath (joinPath cwd ((".pulumi-migrate-temp").data))
    (replSlash stack ++ ("-state.json").data)

/-- The export command of the plain script's exportStackState. -/
def plainExportCmd (cwd stack : List Char) : List (List Char) :=
  [("pulumi").data, ("stack").data, ("export").data,
   ("--stack").data, stack, ("--file").data, exportStatePath cwd stack]

/-- The export command of the spinner Cloud-to-S3 script's
exportStackState (same file naming, plus --show-secrets). -/
def cloudExportCmd (cwd stack : List Char) : List (List Char) :=
  [("pulumi").data, ("stack").data, ("export").data, ("--show-secrets").data,
   ("--stack").data, stack, ("--file").data, exportStatePath cwd stack]

/-- The bucket-creation command of createS3Bucket (identical in the plain
and spinner variants): the location-constraint arguments are appended
exactly when the region is not us-east-1. -/
def createBucketCmd (bucket region : List Char) : List (List Char) :=
  [("aws").data, ("s3api").data, ("create-bucket").data,
   ("--bucket").data, bucket, ("--region").data, region] ++
    (if region = ("us-east-1").data then []
     else [("--create-bucket-configuration").data,
           ("LocationConstraint=").data ++ region])

/-- Secrets configuration handed to createStackInS3. -/
structure SecretsConfig where
  passphrase : Option (List Char)
  kmsAlias : Option (List Char)
  region : List Char
deriving DecidableEq, Repr

/-- The awskms:// secrets-provider URL built by createStackInS3. -/
def kmsProviderUrl (cfg : SecretsConfig) : List Char :=
  ("awskms://").data ++
    (match cfg.kmsAlias with
     | some a => if isPrefixB (("alias/").data) a then a else ("alias/").data ++ a
     | none => ("alias/pulumi-secrets").data) ++
    ("?region=").data ++ cfg.region

/-- The secrets-provider arguments pushed by createStackInS3 (same in the
first attempt and in the organization-less fallback): passphrase is
injected via an environment variable and adds no argument, awskms adds
the provider URL, default adds nothing, anything else is passed through. -/
def secretsArgs (sp : List Char) (cfg : SecretsConfig) : List (List Char) :=
  if sp = ("passphrase").data then []
  else if sp = ("awskms").data then [("--secrets-provider").data, kmsProviderUrl cfg]
  else if sp = ("default").data then []
  else [("--secrets-provider").data, sp]

/-- First and second components of the JavaScript destructuring
"const [orgName, stackName] = stack.split('/')". -/
def orgNameOf (stack : List Char) : List Char :=
  ((splitOnChar '/' stack).head?).getD []

def stackNameOf (stack : List Char) : Option (List Char) :=
  (splitOnChar '/' stack)[1]?

/-- JavaScript truthiness of the "orgName && stackName" guard. -/
def hasOrgPair (stack : List Char) : Bool :=
  !(decide (orgNameOf stack = [])) &&
    (match stackNameOf stack with
     | some s => !(decide (s = []))
     | none => false)

/-- The "stackName || stack" value pushed by createStackInS3. -/
def bareNameOf (stack : List Char) : List Char :=
  match stackNameOf stack with
  | some s => if s = [] then stack else s
  | none => stack

/-- The first stack-init command of createStackInS3: bare name,
--non-interactive, the secrets-provider arguments, then the organization
flag when the stack id has a truthy org/name pair. -/
def s3InitFirstCmd (stack sp : List Char) (cfg : SecretsConfig) : List (List Char) :=
  [("pulumi").data, ("stack").data, ("init").data, bareNameOf stack,
   ("--non-interactive").data] ++ secretsArgs sp cfg ++
    (if hasOrgPair stack then [("--organization").data, orgNameOf stack] else [])

/-- The fallback stack-init command of createStackInS3 (no organization
flag, same secrets-provider configuration). -/
def s3InitFallbackCmd (stack sp : List Char) (cfg : SecretsConfig) : List (List Char) :=
  [("pulumi").data, ("stack").data, ("init").data, (stackNameOf stack).getD [],
   ("--non-interactive").data] ++ secretsArgs sp cfg

/-- createStackInS3 of the spinner Cloud-to-S3 script as a function of the
two possible init invocations' outcomes: on first-attempt failure with a
truthy org/name pair it retries exactly once without the organization
flag; otherwise it fails immediately.  Returns the issued commands and
the step result. -/
def createStackInS3 (stack sp : List Char) (cfg : SecretsConfig)
    (firstOk fallbackOk : Bool) : List (List (List Char)) × Bool :=
  if firstOk then ([s3InitFirstCmd stack sp cfg], true)
  else if hasOrgPair stack then
    ([s3InitFirstCmd stack sp cfg, s3InitFallbackCmd stack sp cfg], fallbackOk)
  else ([s3InitFirstCmd stack sp cfg], false)

/-- The stack-init command of createStackInPulumiCloud: the
organization-qualified name (explicit --organization option from the CLI,
else the org prefix of the stack id) when truthy, else the stack id,
followed by --non-interactive. -/
def cloudInitCmd (stack : List Char) (organization : Option (List Char)) :
    List (List Char) :=
  [("pulumi").data, ("stack").data, ("init").data] ++
    (match normOptVal organization with
     | some o => [o ++ '/' :: ((stackNameOf stack).getD stack)]
     | none =>
       if containsB stack (['/']) then
         match normOptVal (some (orgNameOf stack)) with
         | some o => [o ++ '/' :: ((stackNameOf stack).getD stack)]
         | none => [stack]
       else [stack]) ++
    [("--non-interactive").data]

/-- createStackInPulumiCloud of the S3-to-Cloud script as a function of
the init invocation's outcome: a single attempt, no retry of any kind. -/
def createStackInPulumiCloud (stack : List Char) (organization : Option (List Char))
    (firstOk : Bool) : List (List (List Char)) × Bool :=
  ([cloudInitCmd stack organization], firstOk)

/-! ### Orchestrator of the plain migration script (migrateStack)

The plain script's migrateStack is a linear sequence of external-command
steps with early `Deno.exit(1)` aborts.  The environment records the
outcome of every external interaction and flag the source consults; the
run function returns the sequence of performed steps and the process exit
code (0 when the script runs to completion).  Fields that the source only
uses for log messages (awsConfigured, tableCreateOk, deleteOk) are kept
for fidelity but do not influence the trace or the exit code. -/

inductive Ev where
  | checkPulumi
  | checkAws
  | checkBucket
  | createBucketEv
  | checkTable
  | createTableEv
  | exportState
  | loginS3
  | createStack
  | importState
  | verify
  | deleteSrc
  | cleanup
deriving DecidableEq, BEq, Repr

structure MigrateEnv where
  pulumiInstalled : Bool
  awsConfigured : Bool
  bucketExists : Bool
  createBucketFlag : Bool
  bucketCreateOk : Bool
  hasDynamoTable : Bool
  createDynamoFlag : Bool
  tableExists : Bool
  tableCreateOk : Bool
  exportOk : Bool
  loginOk : Bool
  createStackOk : Bool
  importOk : Bool
  skipVerify : Bool
  verifyOk : Bool
  userConfirms : Bool
  deleteSource : Bool
  deleteOk : Bool
deriving DecidableEq, Repr

/-- Steps 6 and 7 of migrateStack: optional source deletion, then cleanup,
then the success message (the script then ends with exit code 0).  A
deletion failure only logs a warning. -/
def finishRun (e : MigrateEnv) (pre : List Ev) : List Ev × Nat :=
  ((if e.deleteSource then pre ++ [Ev.deleteSrc] else pre) ++ [Ev.cleanup], 0)

/-- Step 5 of migrateStack: unless skip-verify is set, run verifyMigration;
on failure, prompt the user; declining runs cleanUpTempFiles and exits 1,
confirming continues with the remaining steps. -/
def verifyAndFinish (e : MigrateEnv) (pre : List Ev) : List Ev × Nat :=
  if e.skipVerify then finishRun e pre
  else if e.verifyOk then finishRun e (pre ++ [Ev.verify])
  else if e.userConfirms then finishRun e (pre ++ [Ev.verify])
  else (pre ++ [Ev.verify, Ev.cleanup], 1)

/-- Steps 1-4 of migrateStack: export, login to the S3 backend, create the
stack, import; each failure is an immediate exit 1 (with no cleanup call
on those paths). -/
def migrationSteps (e : MigrateEnv) : List Ev × Nat :=
  if e.exportOk then
    if e.loginOk then
      if e.createStackOk then
        if e.importOk then
          verifyAndFinish e [Ev.exportState, Ev.loginS3, Ev.createStack, Ev.importState]
        else ([Ev.exportState, Ev.loginS3, Ev.createStack, Ev.importState], 1)
      else ([Ev.exportState, Ev.loginS3, Ev.createStack], 1)
    else ([Ev.exportState, Ev.loginS3], 1)
  else ([Ev.exportState], 1)

/-- Bucket provisioning block of migrateStack: head-bucket check, then
create when absent and allowed; the second component tells whether the
run proceeds (false means exit 1). -/
def bucketPhase (e : MigrateEnv) : List Ev × Bool :=
  if e.bucketExists then ([Ev.checkBucket], true)
  else if e.createBucketFlag then ([Ev.checkBucket, Ev.createBucketEv], e.bucketCreateOk)
  else ([Ev.checkBucket], false)

/-- DynamoDB provisioning block of migrateStack: only consulted when a
table name was supplied; never aborts the run (failures degrade to
"continuing without state locking"). -/
def dynamoPhase (e : MigrateEnv) : List Ev :=
  if e.hasDynamoTable then
    if e.tableExists then [Ev.checkTable]
    else if e.createDynamoFlag then [Ev.checkTable, Ev.createTableEv]
    else [Ev.checkTable]
  else []

/-- The whole migrateStack run of the plain script: prerequisite checks
(a missing Pulumi CLI exits 1; a failing AWS credential check only warns),
bucket and optional DynamoDB provisioning, then the migration steps. -/
def migrateRun (e : MigrateEnv) : List Ev × Nat :=
  if e.pulumiInstalled then
    if (bucketPhase e).2 then
      ([Ev.checkPulumi, Ev.checkAws] ++ (bucketPhase e).1 ++ dynamoPhase e
        ++ (migrationSteps e).1, (migrationSteps e).2)
    else ([Ev.checkPulumi, Ev.checkAws] ++ (bucketPhase e).1, 1)
  else ([Ev.checkPulumi], 1)

/-- Concrete environment: everything up to and including the export
succeeds and the login to the target S3 backend fails. -/
def envC1 : MigrateEnv :=
  ⟨true, true, true, false, false, false, false, false, false,
   true, false, false, false, false, false, false, false, false⟩

/-- Concrete environment: a fully successful run with skip-verify set. -/
def envC1good : MigrateEnv :=
  ⟨true, true, true, false, false, false, false, false, false,
   true, true, true, true, true, false, false, false, false⟩

/-- Concrete environment: the target bucket does not exist and the
create-bucket flag is off. -/
def envC3 : MigrateEnv :=
  ⟨true, true, false, false, false, false, false, false, false,
   true, true, true, true, false, false, false, false, false⟩

/-! ### Helper lemmas about the string scanners -/

theorem isPrefixB_append (p t : List Char) : isPrefixB p (p ++ t) = true := by
  induction p with
  | nil => rfl
  | cons a as ih => simp [isPrefixB, ih]

theorem containsB_of_decomp (s₁ pat s₂ : List Char) :
    containsB (s₁ ++ (pat ++ s₂)) pat = true := by
  rw [containsB, List.any_eq_true]
  exact ⟨pat ++ s₂, (List.mem_tails _ _).2 (List.suffix_append _ _), isPrefixB_append _ _⟩

theorem digit_not_ws (c : Char) (h : c.isDigit = true) : isWsChar c = false := by
  cases e : isWsChar c
  · rfl
  · exfalso
    have e' : c = ' ' ∨ c = '\t' ∨ c = '\n' ∨ c = '\r' ∨ c = '\x0b' ∨ c = '\x0c' := by
      simpa [isWsChar, or_assoc] using e
    rcases e' with rfl | rfl | rfl | rfl | rfl | rfl <;> exact absurd h (by decide)

theorem dropWhile_append_all {p : Char → Bool} (d l : List Char)
    (h : ∀ c ∈ d, p c = true) : (d ++ l).dropWhile p = l.dropWhile p := by
  induction d with
  | nil => rfl
  | cons a as ih =>
    have ha : p a = true := h a (List.mem_cons_self _ _)
    simp only [List.cons_append, List.dropWhile_cons, ha, if_true]
    exact ih (fun c hc => h c (List.mem_cons_of_mem _ hc))

theorem eatPlus_cons_pos {p : Char → Bool} (c : Char) (l : List Char) (h : p c = true) :
    eatPlus p (c :: l) = some (l.dropWhile p) := by
  simp [eatPlus, eatOne, h]

theorem matchAt_decomp (d r : List Char) (hd : d ≠ [])
    (hdig : ∀ c ∈ d, c.isDigit = true) :
    matchAt '+' toCreateW ('+' :: ' ' :: (d ++ ' ' :: (toCreateW ++ r))) = true := by
  obtain ⟨c₀, d', rfl⟩ := List.exists_cons_of_ne_nil hd
  have hc₀ : c₀.isDigit = true := hdig c₀ (List.mem_cons_self _ _)
  have hws : isWsChar c₀ = false := digit_not_ws c₀ hc₀
  have e1 : eatOne (fun c => c == '+') ('+' :: ' ' :: (c₀ :: d' ++ ' ' :: (toCreateW ++ r)))
      = some (' ' :: (c₀ :: d' ++ ' ' :: (toCreateW ++ r))) := by
    simp [eatOne]
  have e2 : eatPlus isWsChar (' ' :: (c₀ :: d' ++ ' ' :: (toCreateW ++ r)))
      = some (c₀ :: d' ++ ' ' :: (toCreateW ++ r)) := by
    rw [eatPlus_cons_pos _ _ (by decide), List.cons_append,
      List.dropWhile_cons_of_neg (by simp [hws])]
  have e3 : eatPlus Char.isDigit (c₀ :: d' ++ ' ' :: (toCreateW ++ r))
      = some (' ' :: (toCreateW ++ r)) := by
    rw [List.cons_append, eatPlus_cons_pos _ _ hc₀,
      dropWhile_append_all d' _ (fun c hc => hdig c (List.mem_cons_of_mem _ hc)),
      List.dropWhile_cons_of_neg (by simp)]
  have e4 : eatPlus isWsChar (' ' :: (toCreateW ++ r)) = some (toCreateW ++ r) := by
    rw [eatPlus_cons_pos _ _ (by decide)]
    rw [show toCreateW ++ r = 't' :: (("o create").data ++ r) from rfl]
    rw [List.dropWhile_cons_of_neg (by decide)]
  rw [matchAt, e1, Option.some_bind, e2, Option.some_bind, e3, Option.some_bind, e4]
  exact isPrefixB_append _ _

theorem reSearch_of_containsPlusCreate (out : List Char) (h : ContainsPlusCreate out) :
    reSearch '+' toCreateW out = true ∧ containsB out (("+ ").data) = true := by
  obtain ⟨s₁, d, s₂, hd, hdig, -, rfl⟩ := h
  constructor
  · rw [reSearch, List.any_eq_true]
    exact ⟨'+' :: ' ' :: (d ++ ' ' :: (toCreateW ++ s₂)),
      (List.mem_tails _ _).2 (List.suffix_append _ _),
      matchAt_decomp d s₂ hd hdig⟩
  · have : s₁ ++ '+' :: ' ' :: (d ++ ' ' :: (toCreateW ++ s₂))
        = s₁ ++ ((("+ ").data) ++ (d ++ ' ' :: (toCreateW ++ s₂))) := by
      simp
    rw [this]
    exact containsB_of_decomp _ _ _

theorem hasChangesCloud_of_plusCreate (out : List Char) (h : ContainsPlusCreate out) :
    hasChangesCloud out = true := by
  obtain ⟨h₁, h₂⟩ := reSearch_of_containsPlusCreate out h
  simp [hasChangesCloud, h₁, h₂]

/-- C2 counterexample: the plain script's classifier (verifyMigration in
pulumi-migrate.ts) does not recognize the count pattern.  The concrete
output "no changes, + 1 to create" contains the line fragment
"+ 1 to create" with N = 1 >= 1, yet the classifier reports Clean
(verification passes), contradicting the claim that the classifier returns
ChangesDetected for every output containing such a line. -/
theorem C2_counterexample :
    ContainsPlusCreate (("no changes, + 1 to create").data) ∧
    plainVerify true (("no changes, + 1 to create").data) = true :=
  ⟨⟨(("no changes, ").data), ['1'], [], by decide, by decide, ⟨'1', by decide, by decide⟩,
    rfl⟩, by decide⟩

/-- C2 amended: no single classifier recognizes both signal forms.  The
spinner variants' classifier returns ChangesDetected (verification false)
for every output containing a "+ N to create" line with N >= 1, whatever
the exit status; and the plain script's classifier returns Clean
(verification true, given a zero exit status) for every output containing
the three phrases "0 resources to create", "0 resources to update" and
"0 resources to delete".  The plain classifier does not recognize the
count pattern (see the counterexample). -/
theorem C2_amended (success : Bool) (out : List Char) :
    (ContainsPlusCreate out → cloudVerify success out = false) ∧
    (containsB out (("0 resources to create").data) = true →
     containsB out (("0 resources to update").data) = true →
     containsB out (("0 resources to delete").data) = true →
     plainVerify true out = true) := by
  constructor
  · intro h
    simp [cloudVerify, hasChangesCloud_of_plusCreate out h]
  · intro h₁ h₂ h₃
    simp [plainVerify, plainNoChanges, h₁, h₂, h₃]

/-- C2 witness: the amended theorem applied at concrete outputs. -/
theorem C2_witness :
    cloudVerify true (("+ 1 to create").data) = false ∧
    plainVerify true
      (("0 resources to create, 0 resources to update, 0 resources to delete").data)
      = true :=
  ⟨(C2_amended true (("+ 1 to create").data)).1
      ⟨[], ['1'], [], by decide, by decide, ⟨'1', by decide, by decide⟩, rfl⟩,
   (C2_amended true _).2 (by decide) (by decide) (by decide)⟩

/-- C6: when the preview-diff command exits with non-zero status
(success = false from the command executor), both variants' verifyMigration
report failure (ChangesDetected), regardless of the diff output text. -/
theorem C6_nonzero_exit_never_clean (out : List Char) :
    plainVerify false out = false ∧ cloudVerify false out = false := by
  simp [plainVerify, cloudVerify]

/-! ### Lemmas about splitting, decoding and query parsing -/

theorem splitOnChar_not_mem {sep : Char} {l : List Char} (h : sep ∉ l) :
    splitOnChar sep l = [l] := by
  induction l with
  | nil => rfl
  | cons c rest ih =>
    have hc : ¬ c = sep := fun e => h (e ▸ List.mem_cons_self _ _)
    have ih' := ih (fun hm => h (List.mem_cons_of_mem _ hm))
    simp [splitOnChar, hc, ih']

theorem splitOnChar_append {sep : Char} {l₁ : List Char} (l₂ : List Char) (h : sep ∉ l₁) :
    splitOnChar sep (l₁ ++ sep :: l₂) = l₁ :: splitOnChar sep l₂ := by
  induction l₁ with
  | nil => simp [splitOnChar]
  | cons c rest ih =>
    have hc : ¬ c = sep := fun e => h (e ▸ List.mem_cons_self _ _)
    have ih' := ih (fun hm => h (List.mem_cons_of_mem _ hm))
    simp [splitOnChar, hc, ih']

theorem splitFirst_not_mem {sep : Char} {l : List Char} (h : sep ∉ l) :
    splitFirst sep l = (l, none) := by
  induction l with
  | nil => rfl
  | cons c rest ih =>
    have hc : ¬ c = sep := fun e => h (e ▸ List.mem_cons_self _ _)
    have ih' := ih (fun hm => h (List.mem_cons_of_mem _ hm))
    simp [splitFirst, hc, ih']

theorem splitFirst_append {sep : Char} {l₁ : List Char} (l₂ : List Char) (h : sep ∉ l₁) :
    splitFirst sep (l₁ ++ sep :: l₂) = (l₁, some l₂) := by
  induction l₁ with
  | nil => simp [splitFirst]
  | cons c rest ih =>
    have hc : ¬ c = sep := fun e => h (e ▸ List.mem_cons_self _ _)
    have ih' := ih (fun hm => h (List.mem_cons_of_mem _ hm))
    simp [splitFirst, hc, ih']

theorem okName_mem {l : List Char} (h : okNameB l = true) {c : Char} (hc : c ∈ l) :
    c ≠ '?' ∧ c ≠ '&' ∧ c ≠ '=' ∧ c ≠ '%' ∧ c ≠ '+' := by
  rw [okNameB, List.all_eq_true] at h
  have h' := h c hc
  simp at h'
  exact ⟨h'.1.1.1.1, h'.1.1.1.2, h'.1.1.2, h'.1.2, h'.2⟩

theorem okName_not_mem {l : List Char} (h : okNameB l = true) :
    '?' ∉ l ∧ '&' ∉ l ∧ '=' ∉ l := by
  refine ⟨fun hm => (okName_mem h hm).1 rfl, fun hm => (okName_mem h hm).2.1 rfl,
    fun hm => (okName_mem h hm).2.2.1 rfl⟩

theorem formDecodeAux_id (n : Nat) (l : List Char)
    (h : ∀ c ∈ l, c ≠ '%' ∧ c ≠ '+') : formDecodeAux n l = l := by
  induction n generalizing l with
  | zero => rfl
  | succ n ih =>
    cases l with
    | nil => rfl
    | cons c rest =>
      have hc := h c (List.mem_cons_self _ _)
      have hrest : ∀ x ∈ rest, x ≠ '%' ∧ x ≠ '+' :=
        fun x hx => h x (List.mem_cons_of_mem _ hx)
      simp [formDecodeAux, hc.1, hc.2, ih rest hrest]

theorem formDecode_id {l : List Char} (h : okNameB l = true) : formDecode l = l :=
  formDecodeAux_id _ _
    (fun _ hc => ⟨(okName_mem h hc).2.2.2.1, (okName_mem h hc).2.2.2.2⟩)

theorem spPairs_cons {p : List Char} (rest : List Char) (hp : '&' ∉ p) (hne : p ≠ []) :
    spPairs (p ++ '&' :: rest)
      = (formDecode (splitFirst '=' p).1, formDecode ((splitFirst '=' p).2.getD []))
          :: spPairs rest := by
  rw [spPairs, splitOnChar_append rest hp, List.filter_cons, if_pos]
  · rw [List.map_cons]
    rfl
  · simp [List.isEmpty_iff, hne]

theorem spPairs_single {p : List Char} (hp : '&' ∉ p) (hne : p ≠ []) :
    spPairs p
      = [(formDecode (splitFirst '=' p).1, formDecode ((splitFirst '=' p).2.getD []))] := by
  rw [spPairs, splitOnChar_not_mem hp, List.filter_cons, if_pos]
  · rfl
  · simp [List.isEmpty_iff, hne]

theorem parse_cons (dflt rest : List Char) :
    parseS3BackendUrl dflt ('s' :: '3' :: ':' :: '/' :: '/' :: rest)
      = match splitOnChar '?' rest with
        | [] => none
        | bucket :: parts =>
          if bucket = [] then none
          else some ⟨bucket,
            (normOptVal (searchParamsGet ((parts.head?).getD []) regionKeyW)).getD dflt,
            normOptVal (searchParamsGet ((parts.head?).getD []) tableKeyW)⟩ := rfl

theorem spGet_region_table (R T : List Char) (hRo : okNameB R = true)
    (hTo : okNameB T = true) :
    searchParamsGet ((("region=").data ++ R) ++ '&' :: (("dynamodb_table=").data ++ T))
        regionKeyW = some R ∧
    searchParamsGet ((("region=").data ++ R) ++ '&' :: (("dynamodb_table=").data ++ T))
        tableKeyW = some T := by
  have hAmp1 : '&' ∉ ("region=").data ++ R := by
    intro hm
    rcases List.mem_append.1 hm with hm | hm
    · exact absurd hm (by decide)
    · exact (okName_mem hRo hm).2.1 rfl
  have hAmp2 : '&' ∉ ("dynamodb_table=").data ++ T := by
    intro hm
    rcases List.mem_append.1 hm with hm | hm
    · exact absurd hm (by decide)
    · exact (okName_mem hTo hm).2.1 rfl
  have hne1 : ("region=").data ++ R ≠ [] := by simp
  have hne2 : ("dynamodb_table=").data ++ T ≠ [] := by simp
  have hsf1 : splitFirst '=' (("region=").data ++ R) = (("region").data, some R) := by
    rw [show ("region=").data ++ R = ("region").data ++ '=' :: R from rfl,
      splitFirst_append R (by decide)]
  have hsf2 : splitFirst '=' (("dynamodb_table=").data ++ T)
      = (("dynamodb_table").data, some T) := by
    rw [show ("dynamodb_table=").data ++ T = ("dynamodb_table").data ++ '=' :: T from rfl,
      splitFirst_append T (by decide)]
  have hp2 := spPairs_single hAmp2 hne2
  rw [hsf2] at hp2
  have hp := spPairs_cons (("dynamodb_table=").data ++ T) hAmp1 hne1
  rw [hsf1, hp2] at hp
  simp only [Option.getD_some] at hp
  rw [show formDecode (("region").data) = ("region").data from by decide,
    show formDecode (("dynamodb_table").data) = ("dynamodb_table").data from by decide,
    formDecode_id hRo, formDecode_id hTo] at hp
  constructor
  · rw [searchParamsGet, hp, List.find?_cons_of_pos _ (by dsimp only; decide)]
    rfl
  · rw [searchParamsGet, hp, List.find?_cons_of_neg _ (by dsimp only; decide),
      List.find?_cons_of_pos _ (by dsimp only; decide)]
    rfl

/-- C4: round-trip of the backend-URL builder and parser.  For every
bucket name B, region R and lock-table name T that are nonempty and use
only characters legal in such AWS resource names (no URL separators and
nothing URLSearchParams decodes), parsing the built login URL
"s3://B?region=R&dynamodb_table=T" reconstructs bucket B, region R and
lock table T exactly. -/
theorem C4_roundtrip (B R T dflt : List Char) (hB : B ≠ []) (hR : R ≠ []) (hT : T ≠ [])
    (hBo : okNameB B = true) (hRo : okNameB R = true) (hTo : okNameB T = true) :
    parseS3BackendUrl dflt (buildS3LoginUrl B R (some T)) = some ⟨B, R, some T⟩ := by
  have hBq : '?' ∉ B := (okName_not_mem hBo).1
  have hQne : '?' ∉ (("region=").data ++ R) ++ '&' :: (("dynamodb_table=").data ++ T) := by
    intro hm
    rcases List.mem_append.1 hm with hm | hm
    · rcases List.mem_append.1 hm with hm | hm
      · exact absurd hm (by decide)
      · exact (okName_mem hRo hm).1 rfl
    · rcases List.mem_cons.1 hm with hm | hm
      · exact absurd hm (by decide)
      · rcases List.mem_append.1 hm with hm | hm
        · exact absurd hm (by decide)
        · exact (okName_mem hTo hm).1 rfl
  have hurl : buildS3LoginUrl B R (some T)
      = 's' :: '3' :: ':' :: '/' :: '/' ::
        (B ++ '?' :: ((("region=").data ++ R) ++ '&' :: (("dynamodb_table=").data ++ T))) := by
    rw [buildS3LoginUrl]
    simp only [List.append_assoc]
    rfl
  rw [hurl, parse_cons, splitOnChar_append _ hBq, splitOnChar_not_mem hQne]
  dsimp only
  rw [if_neg hB]
  simp only [List.head?_cons, Option.getD_some]
  rw [(spGet_region_table R T hRo hTo).1, (spGet_region_table R T hRo hTo).2]
  simp only [normOptVal, if_neg hR, if_neg hT, Option.getD_some]

/-- C4 witness: the round-trip theorem applied at concrete names. -/
theorem C4_witness :
    parseS3BackendUrl (("eu-west-3").data)
        (buildS3LoginUrl (("my-state").data) (("us-west-2").data) (some (("locks").data)))
      = some ⟨("my-state").data, ("us-west-2").data, some (("locks").data)⟩ :=
  C4_roundtrip _ _ _ _ (by decide) (by decide) (by decide)
    (by decide) (by decide) (by decide)

/-- C10: parseS3BackendUrl never reports an invalid-URL error merely
because the region query parameter is missing.  For every URL with the
"s3://" scheme and a nonempty bucket (no question mark in bucket or
query) whose query has no region parameter, parsing succeeds and the
region silently defaults to the --region flag value; with no query at
all the same holds and no lock table is reported.  The --region flag
itself defaults to AWS_REGION when set and nonempty, else to the
hardcoded "us-west-2". -/
theorem C10_region_default (B Q dflt : List Char) (hB : B ≠ []) (hBq : '?' ∉ B)
    (hQq : '?' ∉ Q) (hno : searchParamsGet Q regionKeyW = none) :
    parseS3BackendUrl dflt ((("s3://").data) ++ (B ++ '?' :: Q))
        = some ⟨B, dflt, normOptVal (searchParamsGet Q tableKeyW)⟩ ∧
    parseS3BackendUrl dflt ((("s3://").data) ++ B) = some ⟨B, dflt, none⟩ ∧
    resolveDefaultRegion none = ("us-west-2").data ∧
    resolveDefaultRegion (some (("eu-west-1").data)) = ("eu-west-1").data := by
  refine ⟨?_, ?_, rfl, rfl⟩
  · rw [show (("s3://").data) ++ (B ++ '?' :: Q)
        = 's' :: '3' :: ':' :: '/' :: '/' :: (B ++ '?' :: Q) from rfl,
      parse_cons, splitOnChar_append _ hBq, splitOnChar_not_mem hQq]
    dsimp only
    rw [if_neg hB]
    simp only [List.head?_cons, Option.getD_some]
    rw [hno]
    rfl
  · rw [show (("s3://").data) ++ B = 's' :: '3' :: ':' :: '/' :: '/' :: B from rfl,
      parse_cons, splitOnChar_not_mem hBq]
    dsimp only
    rw [if_neg hB]
    rfl

/-- C10 witness: the theorem applied at a concrete URL with only a lock
table in the query, and at a concrete URL without a query. -/
theorem C10_witness :
    parseS3BackendUrl (("eu-west-3").data)
        ((("s3://").data) ++ ((("my-bucket").data) ++ '?' :: (("dynamodb_table=locks").data)))
      = some ⟨("my-bucket").data, ("eu-west-3").data, some (("locks").data)⟩ ∧
    parseS3BackendUrl (("eu-west-3").data) ((("s3://").data) ++ (("my-bucket").data))
      = some ⟨("my-bucket").data, ("eu-west-3").data, none⟩ := by
  have h := C10_region_default (("my-bucket").data) (("dynamodb_table=locks").data)
    (("eu-west-3").data) (by decide) (by decide) (by decide) (by decide)
  refine ⟨?_, h.2.1⟩
  rw [h.1]
  decide

/-- C5: in both executeCommand variants, success is true iff the spawned
process exits with status code 0; on a non-zero exit the spinner
variants' output is stderr when nonempty and the raised error message
otherwise, the plain variant's output carries stderr as a suffix of its
message; on a raised spawn/IO error the output is the error message.
Both functions are total, so no exception propagates to the caller. -/
theorem C5_executeCommand (r : SpawnOutcome) :
    ((executeCommand r).success = true ↔ ∃ so se, r = .completed 0 so se) ∧
    ((executeCommandPlain r).success = true ↔ ∃ so se, r = .completed 0 so se) ∧
    (∀ c so se, r = .completed (c + 1) so se →
      (executeCommand r).output = (if se = [] then exitCodeMsg (c + 1) else se) ∧
      se <:+ (executeCommandPlain r).output) ∧
    (∀ m, r = .raised m →
      (executeCommand r).output = m ∧ (executeCommandPlain r).output = m) := by
  refine ⟨?_, ?_, ?_, ?_⟩
  · constructor
    · intro h
      match r with
      | .completed 0 so se => exact ⟨so, se, rfl⟩
      | .completed (c + 1) so se => simp [executeCommand] at h
      | .raised m => simp [executeCommand] at h
    · rintro ⟨so, se, rfl⟩
      rfl
  · constructor
    · intro h
      match r with
      | .completed 0 so se => exact ⟨so, se, rfl⟩
      | .completed (c + 1) so se => simp [executeCommandPlain] at h
      | .raised m => simp [executeCommandPlain] at h
    · rintro ⟨so, se, rfl⟩
      rfl
  · rintro c so se rfl
    refine ⟨rfl, ?_⟩
    show se <:+ plainFailMsg (c + 1) se
    rw [plainFailMsg, List.append_assoc, List.append_assoc]
    exact (List.suffix_append _ _).trans (List.suffix_append _ _) |>.trans
      (List.suffix_append _ _)
  · rintro m rfl
    exact ⟨rfl, rfl⟩

/-- C5 witness: the theorem applied at a zero exit, a non-zero exit with
and without stderr, and a raised spawn error. -/
theorem C5_witness :
    (executeCommand (.completed 0 ((" ok ").data) [])).success = true ∧
    (executeCommand (.completed 2 [] (("boom").data))).output = ("boom").data ∧
    (executeCommand (.completed 2 [] [])).output = exitCodeMsg 2 ∧
    (executeCommand (.raised (("spawn failed").data))).output = ("spawn failed").data := by
  refine ⟨?_, ?_, ?_, ?_⟩
  · exact ((C5_executeCommand _).1).2 ⟨(" ok ").data, [], rfl⟩
  · rw [((C5_executeCommand _).2.2.1 1 [] (("boom").data) rfl).1]
    decide
  · rw [((C5_executeCommand _).2.2.1 1 [] [] rfl).1, if_pos rfl]
  · exact ((C5_executeCommand _).2.2.2 (("spawn failed").data) rfl).1

/-- C7 counterexample: the plain script's export command does not carry
the --show-secrets option (here for the concrete stack "dev" in the
working directory "/work"). -/
theorem C7_counterexample :
    ("--show-secrets").data ∉ plainExportCmd (("/work").data) (("dev").data) := by
  decide

/-- C7 amended: the spinner Cloud-to-S3 variant's export command carries
--show-secrets and writes to the temporary file named by the stack id
with every '/' replaced by '-' followed by "-state.json"; the plain
script's export command uses the same file naming but omits
--show-secrets.  The replaced name contains no '/'. -/
theorem C7_amended (cwd stack : List Char) :
    cloudExportCmd cwd stack
      = [("pulumi").data, ("stack").data, ("export").data, ("--show-secrets").data,
         ("--stack").data, stack, ("--file").data,
         joinPath (joinPath cwd ((".pulumi-migrate-temp").data))
           (replSlash stack ++ ("-state.json").data)] ∧
    ("--show-secrets").data ∈ cloudExportCmd cwd stack ∧
    plainExportCmd cwd stack
      = [("pulumi").data, ("stack").data, ("export").data,
         ("--stack").data, stack, ("--file").data,
         joinPath (joinPath cwd ((".pulumi-migrate-temp").data))
           (replSlash stack ++ ("-state.json").data)] ∧
    (∀ c ∈ replSlash stack, c ≠ '/') := by
  refine ⟨rfl, ?_, rfl, ?_⟩
  · simp [cloudExportCmd]
  · intro c hc
    rw [replSlash, List.mem_map] at hc
    obtain ⟨a, -, ha⟩ := hc
    intro hslash
    rw [hslash] at ha
    by_cases h : a = '/'
    · rw [if_pos h] at ha
      exact absurd ha (by decide)
    · rw [if_neg h] at ha
      exact h ha

/-- C7 witness: the amended theorem applied at the stack "acme/dev":
the spinner export command carries --show-secrets and targets
"/work/.pulumi-migrate-temp/acme-dev-state.json". -/
theorem C7_witness :
    ("--show-secrets").data ∈ cloudExportCmd (("/work").data) (("acme/dev").data) ∧
    (∀ c ∈ replSlash (("acme/dev").data), c ≠ '/') :=
  ⟨(C7_amended (("/work").data) (("acme/dev").data)).2.1,
   (C7_amended (("/work").data) (("acme/dev").data)).2.2.2⟩

/-- C8: the bucket-create command contains the location-constraint
argument exactly when the region is not "us-east-1" (for any bucket name
other than the flag string itself). -/
theorem C8_location_constraint (b r : List Char)
    (hb : b ≠ ("--create-bucket-configuration").data) :
    ("--create-bucket-configuration").data ∈ createBucketCmd b r
      ↔ r ≠ ("us-east-1").data := by
  constructor
  · intro hm hr
    rw [createBucketCmd, if_pos hr] at hm
    simp only [List.append_nil, List.mem_cons, List.not_mem_nil, or_false] at hm
    rcases hm with h | h | h | h | h | h | h
    all_goals first
      | exact absurd h (by decide)
      | exact hb h.symm
      | (rw [hr] at h; exact absurd h (by decide))
  · intro hr
    rw [createBucketCmd, if_neg hr]
    simp

/-- C8 witness: the theorem applied at a non-special region (argument
present) and at us-east-1 (argument absent). -/
theorem C8_witness :
    ("--create-bucket-configuration").data
        ∈ createBucketCmd (("b1").data) (("eu-west-3").data) ∧
    ("--create-bucket-configuration").data
        ∉ createBucketCmd (("b1").data) (("us-east-1").data) :=
  ⟨(C8_location_constraint (("b1").data) (("eu-west-3").data) (by decide)).2 (by decide),
   fun hm => (C8_location_constraint (("b1").data) (("us-east-1").data) (by decide)).1
     hm rfl⟩

/-- C9 counterexample: createStackInPulumiCloud (the S3-to-Cloud
direction, which supports organization prefixes) issues exactly one init
invocation and reports failure when that invocation fails for the stack
"acme/dev" — it never retries with the bare stack name, contradicting
the claim that every organization-aware variant retries once. -/
theorem C9_counterexample :
    (createStackInPulumiCloud (("acme/dev").data) none false).1.length = 1 ∧
    (createStackInPulumiCloud (("acme/dev").data) none false).2 = false := by
  exact ⟨rfl, rfl⟩

/-- C9 amended: only createStackInS3 (the Cloud-to-S3 spinner variant)
implements the fallback: when the stack id has a truthy org/name pair and
the organization-qualified init fails, it retries exactly once with the
bare stack name and the same secrets-provider arguments, and the step
succeeds iff the fallback does; with no org/name pair a failed init is
reported after a single attempt; a successful first attempt issues a
single command.  createStackInPulumiCloud never retries: it always
issues exactly one init invocation whose outcome is the step result. -/
theorem C9_amended (stack sp : List Char) (cfg : SecretsConfig)
    (firstOk fallbackOk : Bool) (organization : Option (List Char)) :
    (hasOrgPair stack = true → firstOk = false →
      createStackInS3 stack sp cfg firstOk fallbackOk
        = ([s3InitFirstCmd stack sp cfg, s3InitFallbackCmd stack sp cfg], fallbackOk)) ∧
    (firstOk = true →
      createStackInS3 stack sp cfg firstOk fallbackOk
        = ([s3InitFirstCmd stack sp cfg], true)) ∧
    (hasOrgPair stack = false → firstOk = false →
      createStackInS3 stack sp cfg firstOk fallbackOk
        = ([s3InitFirstCmd stack sp cfg], false)) ∧
    (s3InitFallbackCmd stack sp cfg
      = [("pulumi").data, ("stack").data, ("init").data, (stackNameOf stack).getD [],
         ("--non-interactive").data] ++ secretsArgs sp cfg) ∧
    ((createStackInPulumiCloud stack organization firstOk).1.length = 1 ∧
     (createStackInPulumiCloud stack organization firstOk).2 = firstOk) := by
  refine ⟨?_, ?_, ?_, rfl, rfl, rfl⟩
  · intro ho hf
    rw [createStackInS3, hf, if_neg (by simp), if_pos ho]
  · intro hf
    rw [createStackInS3, hf, if_pos rfl]
  · intro ho hf
    rw [createStackInS3, hf, if_neg (by simp), if_neg (by simp [ho])]

/-- C9 witness: the amended theorem applied at the stack "acme/dev" with
the awskms secrets provider: a failed first attempt is followed by
exactly one organization-less retry carrying the same secrets-provider
arguments, and a failed Cloud-direction attempt stays a single command. -/
theorem C9_witness :
    (createStackInS3 (("acme/dev").data) (("awskms").data) ⟨none, none, ("eu-west-3").data⟩
        false true).1.length = 2 ∧
    (createStackInS3 (("acme/dev").data) (("awskms").data) ⟨none, none, ("eu-west-3").data⟩
        false true).2 = true ∧
    (createStackInPulumiCloud (("acme/dev").data) none false).1.length = 1 := by
  have h := C9_amended (("acme/dev").data) (("awskms").data)
    ⟨none, none, ("eu-west-3").data⟩ false true none
  refine ⟨?_, ?_, h.2.2.2.2.1⟩
  · rw [h.1 (by decide) rfl]
    rfl
  · rw [h.1 (by decide) rfl]

/-! ### Orchestrator lemmas -/

theorem bucketPhase_cleanup (e : MigrateEnv) :
    (bucketPhase e).1.count Ev.cleanup = 0 := by
  unfold bucketPhase
  split_ifs <;> rfl

theorem dynamoPhase_cleanup (e : MigrateEnv) :
    (dynamoPhase e).count Ev.cleanup = 0 := by
  unfold dynamoPhase
  split_ifs <;> rfl

theorem migrationSteps_cleanup (e : MigrateEnv) (hex : e.exportOk = true) :
    (migrationSteps e).1.count Ev.cleanup
      = if e.loginOk && e.createStackOk && e.importOk then 1 else 0 := by
  cases hlo : e.loginOk <;> cases hcs : e.createStackOk <;> cases him : e.importOk <;>
      simp only [migrationSteps, verifyAndFinish, finishRun, hex, hlo, hcs, him,
        Bool.false_and, Bool.true_and, Bool.and_false, Bool.and_true,
        if_true, if_false] <;>
    first
      | decide
      | (split_ifs <;> simp [List.count_append] <;> decide)

theorem migrationSteps_exit (e : MigrateEnv) (hex : e.exportOk = true)
    (h : (e.loginOk && e.createStackOk && e.importOk) = false) :
    (migrationSteps e).2 = 1 := by
  cases hlo : e.loginOk <;> cases hcs : e.createStackOk <;> cases him : e.importOk <;>
      rw [hlo, hcs, him] at h <;>
    simp only [migrationSteps, hex, hlo, hcs, him, if_true, if_false] <;>
    first
      | rfl
      | exact absurd h (by decide)

theorem migrateRun_fst (e : MigrateEnv) (hp : e.pulumiInstalled = true)
    (hb : (bucketPhase e).2 = true) :
    (migrateRun e).1 = [Ev.checkPulumi, Ev.checkAws] ++ (bucketPhase e).1 ++ dynamoPhase e
      ++ (migrationSteps e).1 := by
  simp [migrateRun, hp, hb]

theorem migrateRun_snd (e : MigrateEnv) (hp : e.pulumiInstalled = true)
    (hb : (bucketPhase e).2 = true) :
    (migrateRun e).2 = (migrationSteps e).2 := by
  simp [migrateRun, hp, hb]

/-- C1 counterexample: a run of the plain script's migrateStack in which
the export succeeds and the subsequent login to the target S3 backend
fails exits with code 1 without ever calling cleanUpTempFiles, so cleanup
is not executed on that exit path, contradicting the claim. -/
theorem C1_counterexample :
    envC1.exportOk = true ∧ (migrateRun envC1).1.count Ev.cleanup = 0 ∧
    (migrateRun envC1).2 = 1 := by
  decide

/-- C1 amended: in the plain script's migrateStack, for every run that
reaches the export step (Pulumi CLI installed and bucket provisioning
passed) and whose export succeeds, cleanUpTempFiles runs exactly once
when the login, stack-creation and import steps all succeed (including
the user-declined-confirmation path and the success path), and zero
times otherwise; whenever one of login/create/import fails, the process
exits with code 1 without cleanup. -/
theorem C1_amended (e : MigrateEnv) (hp : e.pulumiInstalled = true)
    (hb : (bucketPhase e).2 = true) (hex : e.exportOk = true) :
    ((migrateRun e).1.count Ev.cleanup
        = if e.loginOk && e.createStackOk && e.importOk then 1 else 0) ∧
    ((e.loginOk && e.createStackOk && e.importOk) = false → (migrateRun e).2 = 1) := by
  constructor
  · rw [migrateRun_fst e hp hb, List.count_append, List.count_append, List.count_append,
      bucketPhase_cleanup, dynamoPhase_cleanup, migrationSteps_cleanup e hex,
      (by decide : List.count Ev.cleanup [Ev.checkPulumi, Ev.checkAws] = 0)]
    simp
  · intro h
    rw [migrateRun_snd e hp hb]
    exact migrationSteps_exit e hex h

/-- C1 witness: the amended theorem applied to a fully successful run
(cleanup exactly once) and to the failed-login run (exit 1). -/
theorem C1_witness :
    (migrateRun envC1good).1.count Ev.cleanup = 1 ∧ (migrateRun envC1).2 = 1 := by
  constructor
  · have h := (C1_amended envC1good (by decide) (by decide) (by decide)).1
    rw [h]
    decide
  · exact (C1_amended envC1 (by decide) (by decide) (by decide)).2 (by decide)

/-- C3: when the target S3 bucket does not exist and the create-bucket
flag is off, the plain script's migrateStack exits with code 1 before the
export step: the run performs no export, no backend login, no stack
creation, no import, no verification and no source deletion. -/
theorem C3_no_export_without_bucket (e : MigrateEnv) (h1 : e.bucketExists = false)
    (h2 : e.createBucketFlag = false) :
    (migrateRun e).2 = 1 ∧
    (migrateRun e).1.count Ev.exportState = 0 ∧
    (migrateRun e).1.count Ev.loginS3 = 0 ∧
    (migrateRun e).1.count Ev.createStack = 0 ∧
    (migrateRun e).1.count Ev.importState = 0 ∧
    (migrateRun e).1.count Ev.verify = 0 ∧
    (migrateRun e).1.count Ev.deleteSrc = 0 := by
  have hb : bucketPhase e = ([Ev.checkBucket], false) := by
    simp [bucketPhase, h1, h2]
  cases hp : e.pulumiInstalled <;> simp [migrateRun, hp, hb] <;> decide

/-- C3 witness: the theorem applied to a concrete environment in which the
bucket is absent, creation is disabled, and every later step would have
succeeded. -/
theorem C3_witness :
    (migrateRun envC3).2 = 1 ∧ (migrateRun envC3).1.count Ev.exportState = 0 :=
  ⟨(C3_no_export_without_bucket envC3 (by decide) (by decide)).1,
   (C3_no_export_without_bucket envC3 (by decide) (by decide)).2.1⟩

end SuperUtils
